import Mathlib

set_option maxRecDepth 8000

/-!
Shallow embedding of the jobd daemons (gch1p/jobd, Node.js):

* `src/lib/worker.js` — the Worker scheduler: target queue set, polling loop,
  claim SQL construction, job runner result handling, `setJobStatus` updates;
* `src/lib/db.js` — the storage adapter `wrap` with its reconnect-once logic;
* `src/lib/config.js` — `parseWorkerConfig`'s `[targets]` section loop and the
  falsy-coercing `get` accessor;
* `src/lib/data-validator.js` — request payload validators;
* `src/lib/request-handler.js` — the request router;
* `src/lib/server.js` — the Connection authorization logic;
* `src/lib/workers-list.js` — the Master's run-manual aggregation;
* `src/jobd.js` — the `run-manual` and `add-target` request handlers.

JavaScript objects used as string-keyed maps are modelled as association
lists in insertion order; `undefined` and SQL NULL are modelled with
`Option`; promise settlement is modelled with `Except` or explicit outcome
parameters.  Numbers appearing in the modelled code paths are integers.
-/

namespace Jobd

/-! ### Target queue set and Worker scheduler state (src/lib/worker.js)

A target's queue is observable through `paused`, `queue.length` and
`queue.concurrency`; `nextpoll` is a JS object used as a set of keys, so a
`null` inserted into it becomes the string key `"null"`. -/

structure TargetState where
  paused : Bool
  length : Nat
  concurrency : Nat
deriving DecidableEq, Repr

structure Worker where
  targets : List (String × TargetState)
  polling : Bool
  nextpoll : List String
deriving DecidableEq, Repr

/-- `Worker.getPollTargets`: if the `null` sentinel is among the `nextpoll`
keys (JS `null in this.nextpoll`, where the key is the string `"null"`),
return all served target names, otherwise the `nextpoll` keys. -/
def Worker.getPollTargets (w : Worker) : List String :=
  if "null" ∈ w.nextpoll then w.targets.map Prod.fst else w.nextpoll

/-- `Worker.hasFreeTargets(inTargets)`: scans the served targets; a target
participates when it is in `inTargets`; the test applied is only
`queue.length < queue.concurrency` — the destructured `paused` flag is never
consulted in the source. -/
def Worker.hasFreeTargets (w : Worker) (inTargets : List String) : Bool :=
  w.targets.any fun p => decide (p.1 ∈ inTargets) && decide (p.2.length < p.2.concurrency)

/-- Outcome of one `Worker.poll()` invocation.  `claims ts` is the branch
that sets the polling flag, clears `nextpoll` and calls `getTasks(ts)`
(which claims rows); the other three constructors are the early returns. -/
inductive PollOutcome
  | noTargets
  | alreadyPolling
  | noFreeTargets
  | claims (targets : List String)
deriving DecidableEq, Repr

/-- `Worker.poll()` up to the `getTasks` call: the early-return cascade and
the state change performed before querying storage. -/
def Worker.poll (w : Worker) : PollOutcome × Worker :=
  let targets := w.getPollTargets
  if targets = [] then (PollOutcome.noTargets, w)
  else if w.polling then (PollOutcome.alreadyPolling, w)
  else if w.hasFreeTargets targets = false then (PollOutcome.noFreeTargets, w)
  else (PollOutcome.claims targets, { w with polling := true, nextpoll := [] })

/-- Modelled from the spec's words, for comparison with the code: "slack"
means `length < concurrency` and not paused. -/
def slackSpec (st : TargetState) : Bool :=
  decide (st.length < st.concurrency) && !st.paused

/-- `Worker.addTarget(target, limit)`: error when the target exists, else a
fresh unpaused queue with the given concurrency is added. -/
def Worker.addTarget (w : Worker) (target : String) (limit : Nat) : Except String Worker :=
  if target ∈ w.targets.map Prod.fst then
    Except.error ("target '" ++ target ++ "' already added")
  else
    Except.ok { w with targets := w.targets ++ [(target, { paused := false, length := 0, concurrency := limit })] }

/-- `Worker.setPollTargets(target)` for an array argument: each element is
unioned into the `nextpoll` key set (existing keys keep their position, new
keys are appended). -/
def setPollTargetsArr (nextpoll : List String) (ts : List String) : List String :=
  ts.foldl (fun acc t => if t ∈ acc then acc else acc ++ [t]) nextpoll

/-! ### Job rows and `Worker.setJobStatus` (src/lib/worker.js)

A row's mutable columns.  `Option` is SQL NULL for `result`, `return_code`,
`sig`, `stdout`, `stderr` and "not yet set" for the timestamps. -/

structure Row where
  status : String
  result : Option String := none
  return_code : Option Int := none
  sig : Option String := none
  stdout : Option String := none
  stderr : Option String := none
  time_started : Option Nat := none
  time_finished : Option Nat := none
deriving DecidableEq, Repr

/-- The `data` argument of `setJobStatus`; an outer `none` is a field that is
`undefined` in JS (and therefore not included in the UPDATE). -/
structure SetData where
  code : Option (Option Int) := none
  signal : Option (Option String) := none
  stderr : Option String := none
  stdout : Option String := none
deriving DecidableEq, Repr

/-- Effect of `Worker.setJobStatus(id, status, result, data)` on the row:
the UPDATE always sets `status` and `result`; it sets `time_started` when
`status` is `running` and `time_finished` when `status` is `done`; each
`data` field that is not `undefined` is also set.  The source's defaults are
`result = 'ok'` and `data = {}`. -/
def setJobStatus (row : Row) (status : String) (result : String) (data : SetData) (now : Nat) : Row :=
  let r1 : Row := { row with status := status, result := some result }
  let r2 : Row :=
    if status = "running" then { r1 with time_started := some now }
    else if status = "done" then { r1 with time_finished := some now }
    else r1
  let r3 : Row := match data.code with
    | some c => { r2 with return_code := c }
    | none => r2
  let r4 : Row := match data.signal with
    | some s => { r3 with sig := s }
    | none => r3
  let r5 : Row := match data.stderr with
    | some s => { r4 with stderr := some s }
    | none => r4
  match data.stdout with
  | some s => { r5 with stdout := some s }
  | none => r5

/-! ### Job runner result (src/lib/worker.js, `enqueueJob` and `run`) -/

/-- How `Worker.run(id)`'s promise settles: the child's `exit` event resolves
with `(code, signal, stdout, stderr)` (`code` is null when the child was
killed by a signal); a spawn error rejects with an `Error`. -/
inductive RunOutcome
  | exited (code : Option Int) (signal : Option String) (stdout stderr : String)
  | spawnError (message stack : String)
deriving DecidableEq, Repr

/-- What happened inside the queued job closure of `enqueueJob` before the
`finally` block: either the initial `setJobStatus(id, 'running')` threw, or
`run(id)` settled. -/
inductive JobStep
  | statusUpdateFailed (message stack : String)
  | ran (outcome : RunOutcome)
deriving DecidableEq, Repr

/-- The `data` object of `enqueueJob` as initialized and then filled in. -/
structure JobData where
  code : Option Int := none
  signal : Option String := none
  stdout : String := ""
  stderr : String := ""
deriving DecidableEq, Repr

/-- The `(result, data)` pair reaching the `finally` block of `enqueueJob`:
`result` starts as `'ok'`, becomes `'fail'` when `data.code !== 0`, and on a
caught error becomes `'fail'` with `data.stderr = message + '\n' + stack`. -/
def enqueueJobFinal : JobStep → String × JobData
  | JobStep.ran (RunOutcome.exited code signal out err) =>
      (if code = some 0 then "ok" else "fail",
       { code := code, signal := signal, stdout := out, stderr := err })
  | JobStep.ran (RunOutcome.spawnError msg stack) =>
      ("fail", { stderr := msg ++ "\n" ++ stack })
  | JobStep.statusUpdateFailed msg stack =>
      ("fail", { stderr := msg ++ "\n" ++ stack })

/-- `enqueueJob` passes the fully populated `data` object to the final
`setJobStatus(id, 'done', result, data)`, so all four fields are defined. -/
def JobData.toSetData (d : JobData) : SetData :=
  { code := some d.code, signal := some d.signal, stderr := some d.stderr, stdout := some d.stdout }

/-! ### Storage adapter `wrap` (src/lib/db.js) -/

structure DbError where
  code : String
  fatal : Bool
deriving DecidableEq, Repr

/-- The condition of the `catch` block in `wrap` that triggers the
reconnect-and-retry path. -/
def isReconnectableError (e : DbError) : Bool :=
  (e.code == "PROTOCOL_ENQUEUE_AFTER_FATAL_ERROR")
    || (e.code == "PROTOCOL_CONNECTION_LOST")
    || e.fatal

inductive CallAttempt (α : Type)
  | ok (v : α)
  | err (e : DbError)
deriving DecidableEq, Repr

/-- How the promise returned by a `wrap`ped method settles.  `resolved none`
is resolution with `undefined`: the source's `catch` block falls through
without rethrowing when the error is not reconnectable. -/
inductive WrapOutcome (α : Type)
  | resolved (v : Option α)
  | rejected (e : DbError)
deriving DecidableEq, Repr

/-- The async branch of `wrap(method)` from `src/lib/db.js`: `first` is the
first `link[method]` attempt, `reconnect` is `some e` when the `init()` call
rejects with `e`, `second` is the retried `link[method]` attempt.  The `Nat`
counts how many times `link[method]` was invoked. -/
def wrap {α : Type} (first : CallAttempt α) (reconnect : Option DbError)
    (second : CallAttempt α) : WrapOutcome α × Nat :=
  match first with
  | CallAttempt.ok v => (WrapOutcome.resolved (some v), 1)
  | CallAttempt.err e =>
    if isReconnectableError e then
      match reconnect with
      | some ie => (WrapOutcome.rejected ie, 1)
      | none =>
        match second with
        | CallAttempt.ok v => (WrapOutcome.resolved (some v), 2)
        | CallAttempt.err e2 => (WrapOutcome.rejected e2, 2)
    else (WrapOutcome.resolved none, 1)

/-! ### Worker config `[targets]` section (src/lib/config.js, `parseWorkerConfig`) -/

/-- `util.isNumeric` restricted to the integer literals relevant here. -/
def isNumericStr (s : String) : Bool := s.toInt?.isSome

/-- The loop over `raw.targets` in `parseWorkerConfig`: a target named
`null` throws, a non-numeric value throws, a parsed value `< 1` throws;
otherwise the pair is recorded. -/
def parseTargetsSection : List (String × String) → Except String (List (String × Int))
  | [] => Except.ok []
  | (name, v) :: rest =>
    if name = "null" then
      Except.error "word 'null' is reserved, please don't use it as a target name"
    else if isNumericStr v = false then
      Except.error ("value of target '" ++ name ++ "' must be a number")
    else
      let n := v.toInt?.getD 0
      if n < 1 then Except.error ("target '" ++ name ++ "' has invalid value")
      else (parseTargetsSection rest).map (fun r => (name, n) :: r)

/-! ### JSON-ish values and the data validator (src/lib/data-validator.js)

Field values are modelled flat: nested array/object payloads are never
inspected by the validators, so `arr` and `obj` are bare tags. -/

inductive JsVal
  | null
  | bool (b : Bool)
  | num (n : Int)
  | str (s : String)
  | arr
  | obj
deriving DecidableEq, Repr

/-- JS `typeof` (`typeof null` is `"object"`). -/
def jsTypeof : JsVal → String
  | JsVal.null => "object"
  | JsVal.bool _ => "boolean"
  | JsVal.num _ => "number"
  | JsVal.str _ => "string"
  | JsVal.arr => "object"
  | JsVal.obj => "object"

/-- A request payload (`message.requestData`): a primitive or an object with
fields. -/
inductive JsTop
  | prim (v : JsVal)
  | object (fields : List (String × JsVal))
deriving DecidableEq, Repr

/-- lodash `isObject`: objects and arrays are objects, `null` and the other
primitives are not. -/
def lodashIsObject : JsTop → Bool
  | JsTop.object _ => true
  | JsTop.prim JsVal.arr => true
  | JsTop.prim JsVal.obj => true
  | _ => false

def getField (data : JsTop) (name : String) : Option JsVal :=
  match data with
  | JsTop.object fields => fields.lookup name
  | JsTop.prim _ => none

/-- `checkType` of the data validator (the one-character type codes). -/
def checkType (t : Char) (v : JsVal) : Bool :=
  if t = 'i' then match v with | JsVal.num _ => true | _ => false
  else if t = 'n' then match v with | JsVal.num _ => true | _ => false
  else if t = 's' then match v with | JsVal.str _ => true | _ => false
  else if t = 'o' then match v with | JsVal.obj => true | JsVal.arr => true | JsVal.null => true | _ => false
  else if t = 'a' then match v with | JsVal.arr => true | _ => false
  else false

def typeName : Char → String
  | 'i' => "integer"
  | 'n' => "number"
  | 's' => "string"
  | 'o' => "object"
  | 'a' => "array"
  | _ => "?"

def mustBeMsg (name : String) (types : List Char) : String :=
  "'" ++ name ++ "' must be " ++
    (match types with
     | [t] => typeName t
     | ts => "any of: " ++ String.intercalate ", " (ts.map typeName))

def validateObjectSchemaGo (data : JsTop) : List (String × List Char × Bool) → Except String Unit
  | [] => Except.ok ()
  | (name, types, required) :: rest =>
    match getField data name with
    | none =>
      if required then Except.error ("missing required field " ++ name)
      else validateObjectSchemaGo data rest
    | some v =>
      if types.any (fun t => checkType t v) then validateObjectSchemaGo data rest
      else Except.error (mustBeMsg name types)

/-- `validateObjectSchema(data, schema)`. -/
def validateObjectSchema (data : JsTop) (schema : List (String × List Char × Bool)) : Except String Unit :=
  if lodashIsObject data = false then Except.error "data is not an object"
  else validateObjectSchemaGo data schema

/-- `validateInputTargetAndConcurrency(data, onlyTarget)`: requires a string
`target` (and, unless `onlyTarget`, an integer `concurrency > 0`).  The
target's value itself is not inspected further — there is no reserved-name
check here. -/
def validateInputTargetAndConcurrency (data : JsTop) (onlyTarget : Bool := false) : Except String Unit :=
  let schema : List (String × List Char × Bool) :=
    [("target", ['s'], true)] ++ (if onlyTarget then [] else [("concurrency", ['i'], true)])
  match validateObjectSchema data schema with
  | Except.error e => Except.error e
  | Except.ok _ =>
    if onlyTarget = false then
      match getField data "concurrency" with
      | some (JsVal.num n) => if n ≤ 0 then Except.error "Invalid concurrency value." else Except.ok ()
      | _ => Except.ok ()
    else Except.ok ()

/-- The `add-target` handler `onAddTarget` of `src/jobd.js`: validate, then
`worker.addTarget(data.target, data.concurrency)`, then reply `'ok'`.  A
thrown error becomes an error response via the router. -/
def onAddTarget (w : Worker) (data : JsTop) : Except String (Worker × String) :=
  match validateInputTargetAndConcurrency data with
  | Except.error e => Except.error e
  | Except.ok _ =>
    match getField data "target", getField data "concurrency" with
    | some (JsVal.str t), some (JsVal.num n) =>
      match w.addTarget t n.toNat with
      | Except.error e => Except.error e
      | Except.ok w2 => Except.ok (w2, "ok")
    | _, _ => Except.error "unreachable: schema guarantees target and concurrency"

/-! ### Request router (src/lib/request-handler.js) -/

structure ReqMsg where
  requestType : String
  requestNo : Int
deriving DecidableEq, Repr

structure RespMsg where
  no : Int
  error : Option String := none
  data : Option String := none
deriving DecidableEq, Repr

/-- How the (async) handler's returned promise settles; the payload is
abstracted to a string. -/
inductive HandlerOutcome
  | fulfilled (data : String)
  | rejected (message : String)
deriving DecidableEq, Repr

/-- `RequestHandler.process(message, connection)`: a registered handler's
fulfilled value is sent back as `data`, a rejection as `error`, and an
unregistered request type is answered with the `unknown request type`
error — in every case tagged with the request's `no`. -/
def requestHandlerProcess (handlers : List (String × HandlerOutcome)) (msg : ReqMsg) : RespMsg :=
  match handlers.lookup msg.requestType with
  | some (HandlerOutcome.fulfilled d) => { no := msg.requestNo, data := some d }
  | some (HandlerOutcome.rejected e) => { no := msg.requestNo, error := some e }
  | none => { no := msg.requestNo, error := some ("unknown request type: '" ++ msg.requestType ++ "'") }

/-! ### Connection authorization (src/lib/server.js) -/

/-- The configuration consulted by `Connection`: `config.get` coerces a
missing or empty password to `null`, modelled as `none`. -/
structure AuthConfig where
  password : Option String
  always_allow_localhost : Bool
deriving DecidableEq, Repr

/-- Constructor: `this._isAuthorized = !config.get('password')`. -/
def initialAuthorized (cfg : AuthConfig) : Bool := cfg.password.isNone

/-- `Connection.setSocket`: additionally authorize peers from `127.0.0.1`
when `always_allow_localhost` is set. -/
def setSocketAuthorized (cfg : AuthConfig) (remoteAddress : String) : Bool :=
  initialAuthorized cfg || (decide (remoteAddress = "127.0.0.1") && cfg.always_allow_localhost)

/-- An incoming parsed request; `password` is `none` when the field was
absent or empty (`_parseMessage` only stores a truthy password). -/
structure AuthReqMsg where
  requestNo : Int
  password : Option String
  requestType : String
deriving DecidableEq, Repr

/-- What `_processChunks` does with one `RequestMessage`: either send an
`invalid password` error response and close the connection, or emit
`request-message` and keep the connection open (recording the possibly
updated authorization flag). -/
inductive ConnStep
  | errorClose (resp : RespMsg)
  | emitRequest (authorizedAfter : Bool)
deriving DecidableEq, Repr

/-- The authorization gate of `Connection._processChunks` for a request
message. -/
def processRequestAuth (cfg : AuthConfig) (isAuthorized : Bool) (msg : AuthReqMsg) : ConnStep :=
  if isAuthorized = false then
    if msg.password ≠ cfg.password then
      ConnStep.errorClose { no := msg.requestNo, error := some "invalid password" }
    else ConnStep.emitRequest true
  else ConnStep.emitRequest isAuthorized

/-! ### `getTasks` claim SQL and the poll cycle tail (src/lib/worker.js, src/lib/config.js) -/

/-- `config.get(key)` is `config[key] || null`: an integer value of `0` is
falsy and comes back as `null` (`none`). -/
def configGetIntOrNull (stored : Int) : Option Int :=
  if stored = 0 then none else some stored

/-- JS template-string rendering of the retrieved value (`null` prints as
the string `null`). -/
def jsNumToString : Option Int → String
  | some n => toString n
  | none => "null"

/-- `sqlLimit` in `getTasks`:
`config.get('mysql_fetch_limit') !== 0 ? \` LIMIT 0, ${...}\` : ''`. -/
def sqlLimitClause (stored : Int) : String :=
  if configGetIntOrNull stored ≠ some 0 then " LIMIT 0, " ++ jsNumToString (configGetIntOrNull stored)
  else ""

/-- The claim SELECT built by `getTasks` for the by-target branch, with the
escaped status and target list abstracted as strings. -/
def getTasksSql (stored : Int) (table statusEsc targetsEsc : String) : String :=
  "SELECT id, status, target FROM " ++ table ++ " WHERE status=" ++ statusEsc
    ++ " AND target IN (" ++ targetsEsc ++ ") ORDER BY id " ++ sqlLimitClause stored ++ " FOR UPDATE"

/-- JS truthiness of the retrieved fetch limit. -/
def jsTruthyOptInt : Option Int → Bool
  | none => false
  | some n => decide (n ≠ 0)

/-- The re-poll guard in `poll()`'s first `.then`:
`config.get('mysql_fetch_limit') && rowsCount >= config.get('mysql_fetch_limit')`. -/
def pollThenSchedules (stored rowsCount : Int) : Bool :=
  jsTruthyOptInt (configGetIntOrNull stored) && decide (rowsCount ≥ stored)

/-- The tail of a successful polling cycle: union the just-polled targets
back into `nextpoll` when the guard fires, clear `polling`, and report
whether `poll()` is invoked again (`getPollTargets().length > 0`). -/
def pollCycleEnd (w : Worker) (targets : List String) (stored rowsCount : Int) : Worker × Bool :=
  let w1 := if pollThenSchedules stored rowsCount then
              { w with nextpoll := setPollTargetsArr w.nextpoll targets }
            else w
  let w2 := { w1 with polling := false }
  (w2, !w2.getPollTargets.isEmpty)

/-! ### Master run-manual aggregation (src/lib/workers-list.js, `_runManualCall`) -/

/-- One element of `Promise.allSettled(promises)`: a fulfilled Worker
response carries optional `jobs` and `errors` maps (id-keyed, payloads
abstracted to strings), a rejection carries the reason's message. -/
inductive SettledResult
  | fulfilled (jobs : Option (List (Int × String))) (errors : Option (List (Int × String)))
  | rejected (message : String)
deriving DecidableEq, Repr

/-- The aggregated `{jobs, errors}` response object; a key that was never
touched stays absent. -/
structure AggResponse where
  jobs : Option (List (Int × String)) := none
  errors : Option (List (Int × String)) := none
deriving DecidableEq, Repr

/-- `Object.assign` on an id-keyed map, modelled with last-write-wins
override (key order is not significant for the properties proved here). -/
def objAssign (base upd : List (Int × String)) : List (Int × String) :=
  base.filter (fun p => !(upd.any (fun q => decide (q.1 = p.1)))) ++ upd

def setDataAgg (resp : AggResponse) (entries : List (Int × String)) : AggResponse :=
  { resp with jobs := some (objAssign (resp.jobs.getD []) entries) }

def setErrorAgg (resp : AggResponse) (entries : List (Int × String)) : AggResponse :=
  { resp with errors := some (objAssign (resp.errors.getD []) entries) }

/-- The loop over `results` after `Promise.allSettled` (the
`MANUAL_CALL_TYPE_RUN` path).  For a rejected result the source runs
`for (let jobIds of jobsByPromise[i]) for (let jobId of jobIds) ...`;
`jobsByPromise[i]` is a flat array of ids, so the inner `for...of` iterates
a number, which throws a TypeError as soon as the array is non-empty. -/
def processSettledRun : List SettledResult → List (List Int) → AggResponse → Except String AggResponse
  | [], _, resp => Except.ok resp
  | SettledResult.fulfilled jobs errors :: rest, idss, resp =>
      let resp1 := match jobs with
        | some js => setDataAgg resp js
        | none => resp
      let resp2 := match errors with
        | some es => setErrorAgg resp1 es
        | none => resp1
      processSettledRun rest idss.tail resp2
  | SettledResult.rejected _ :: rest, idss, resp =>
      match idss.headD [] with
      | [] => processSettledRun rest idss.tail resp
      | _ :: _ => Except.error "TypeError: jobIds is not iterable"

def lookupTargetName (m : List (Int × String)) (id : Int) : String :=
  (m.lookup id).getD "undefined"

/-- The trailing `if (exceptions.length)` loop recording jobs whose target
no Worker serves. -/
def appendExceptions (resp : AggResponse) (exceptions : List Int) (jobToTargetMap : List (Int × String)) : AggResponse :=
  exceptions.foldl
    (fun r id =>
      setErrorAgg r [(id, "worker serving target '" ++ lookupTargetName jobToTargetMap id ++ "' not found")])
    resp

/-- The response-assembly phase of `WorkersList._runManualCall` (after the
Worker calls settled): process the settled results, then append the
exceptions list. -/
def runManualAggregate (results : List SettledResult) (jobsByPromise : List (List Int))
    (exceptions : List Int) (jobToTargetMap : List (Int × String)) : Except String AggResponse :=
  match processSettledRun results jobsByPromise {} with
  | Except.error e => Except.error e
  | Except.ok resp =>
      Except.ok (if exceptions = [] then resp else appendExceptions resp exceptions jobToTargetMap)

/-! ### Worker `run-manual` pre-validation (src/jobd.js, `onRunManual`) -/

/-- lodash `uniq`: first occurrence kept, order preserved. -/
def uniqAux (seen : List JsVal) : List JsVal → List JsVal
  | [] => []
  | v :: rest => if v ∈ seen then uniqAux seen rest else v :: uniqAux (v :: seen) rest

def uniqJs (l : List JsVal) : List JsVal := uniqAux [] l

/-- The validation loop of `onRunManual`: reject when an id is not a number
(`typeof id !== 'number'`) or is a key of `jobPromises`. -/
def validateIds (jobPromises : List Int) : List JsVal → Except String Unit
  | [] => Except.ok ()
  | v :: rest =>
    match v with
    | JsVal.num n =>
        if n ∈ jobPromises then
          Except.error ("another client is already waiting for job " ++ toString n)
        else validateIds jobPromises rest
    | _ => Except.error ("all ids must be numbers, got " ++ jsTypeof v)

/-- The daemon state touched by `onRunManual` before any response: the keys
of `jobPromises` and a counter of `worker.getTasks` invocations (storage
accesses). -/
structure JobdState where
  jobPromises : List Int
  getTasksCalls : Nat
deriving DecidableEq, Repr

def numIdsOf (l : List JsVal) : List Int :=
  l.filterMap fun v => match v with
    | JsVal.num n => some n
    | _ => none

/-- `onRunManual` up to and including the `worker.getTasks` call: uniq the
ids, run the validation loop, and only then register one promise per id and
query storage.  A validation error propagates with the state untouched. -/
def onRunManualPre (st : JobdState) (ids : List JsVal) : Except String Unit × JobdState :=
  let jobIds := uniqJs ids
  match validateIds st.jobPromises jobIds with
  | Except.error e => (Except.error e, st)
  | Except.ok _ =>
      (Except.ok (),
       { jobPromises := st.jobPromises ++ numIdsOf jobIds,
         getTasksCalls := st.getTasksCalls + 1 })

/-! ### Concrete instances used by the claim theorems -/

def emptyWorker : Worker := { targets := [], polling := false, nextpoll := [] }

/-- A Worker whose single poll target `a` is paused but has a free slot. -/
def pausedFreeWorker : Worker :=
  { targets := [("a", { paused := true, length := 0, concurrency := 1 })],
    polling := false, nextpoll := ["a"] }

/-- A Worker whose single poll target `a` is saturated. -/
def saturatedWorker : Worker :=
  { targets := [("a", { paused := false, length := 2, concurrency := 1 })],
    polling := false, nextpoll := ["a"] }

/-- An accepted row about to be started. -/
def acceptedRow : Row := { status := "accepted" }

/-- A Worker in the middle of a polling cycle over target `a`. -/
def midPollWorker : Worker :=
  { targets := [("a", { paused := false, length := 1, concurrency := 1 })],
    polling := true, nextpoll := [] }

/-- `midPollWorker` after a cycle whose row count reached the fetch limit. -/
def midPollWorkerRepoll : Worker :=
  { targets := [("a", { paused := false, length := 1, concurrency := 1 })],
    polling := false, nextpoll := ["a"] }

/-- `midPollWorker` after a cycle that scheduled no follow-up. -/
def midPollWorkerDone : Worker :=
  { targets := [("a", { paused := false, length := 1, concurrency := 1 })],
    polling := false, nextpoll := [] }

/-- The Worker produced by adding target `null` to an empty Worker. -/
def nullTargetWorker : Worker :=
  { targets := [("null", { paused := false, length := 0, concurrency := 1 })],
    polling := false, nextpoll := [] }

def authCfg : AuthConfig := { password := some "p", always_allow_localhost := true }

def authMsg : AuthReqMsg := { requestNo := 3, password := none, requestType := "status" }

def st10 : JobdState := { jobPromises := [5], getTasksCalls := 0 }

/-! ## Helper lemmas -/

theorem mem_uniqAux (l : List JsVal) : ∀ (seen : List JsVal) (v : JsVal),
    v ∈ uniqAux seen l ↔ v ∈ l ∧ v ∉ seen := by
  induction l with
  | nil => intro seen v; simp [uniqAux]
  | cons x rest ih =>
    intro seen v
    by_cases hx : x ∈ seen
    · rw [uniqAux, if_pos hx, ih]
      constructor
      · rintro ⟨h1, h2⟩
        exact ⟨List.mem_cons_of_mem _ h1, h2⟩
      · rintro ⟨h1, h2⟩
        rcases List.mem_cons.mp h1 with h | h
        · exact absurd (h ▸ hx) h2
        · exact ⟨h, h2⟩
    · rw [uniqAux, if_neg hx]
      constructor
      · intro hmem
        rcases List.mem_cons.mp hmem with rfl | hmem2
        · exact ⟨List.mem_cons_self _ _, hx⟩
        · rcases (ih (x :: seen) v).mp hmem2 with ⟨h1, h2⟩
          refine ⟨List.mem_cons_of_mem _ h1, fun hs => h2 (List.mem_cons_of_mem _ hs)⟩
      · rintro ⟨h1, h2⟩
        rcases List.mem_cons.mp h1 with rfl | hmem2
        · exact List.mem_cons_self _ _
        · by_cases hvx : v = x
          · exact hvx ▸ List.mem_cons_self _ _
          · refine List.mem_cons_of_mem _ ((ih (x :: seen) v).mpr ⟨hmem2, ?_⟩)
            intro hs
            rcases List.mem_cons.mp hs with h | h
            · exact hvx h
            · exact h2 h

theorem mem_uniqJs (l : List JsVal) (v : JsVal) : v ∈ uniqJs l ↔ v ∈ l := by
  rw [uniqJs, mem_uniqAux]
  simp

theorem validateIds_err (jp : List Int) (l : List JsVal)
    (h : ∃ v ∈ l, jsTypeof v ≠ "number" ∨ ∃ n, v = JsVal.num n ∧ n ∈ jp) :
    ∃ e, validateIds jp l = Except.error e := by
  induction l with
  | nil => simp at h
  | cons x rest ih =>
    cases x with
    | num n =>
      by_cases hn : n ∈ jp
      · exact ⟨"another client is already waiting for job " ++ toString n,
          by rw [validateIds, if_pos hn]⟩
      · rw [validateIds, if_neg hn]
        apply ih
        rcases h with ⟨v, hv, hbad⟩
        rcases List.mem_cons.mp hv with rfl | hvr
        · rcases hbad with ht | ⟨m, hm, hmp⟩
          · exact absurd rfl ht
          · injection hm with h2
            exact absurd (h2 ▸ hmp) hn
        · exact ⟨v, hvr, hbad⟩
    | null => exact ⟨_, rfl⟩
    | bool b => exact ⟨_, rfl⟩
    | str s => exact ⟨_, rfl⟩
    | arr => exact ⟨_, rfl⟩
    | obj => exact ⟨_, rfl⟩

/-! ## Claim theorems -/

/-- Claim C1 counterexample: a Worker whose only poll target is paused but
below its concurrency limit has no target with spec-slack
(`length < concurrency` and not paused), yet `poll()` proceeds to the
claiming branch (`getTasks` is called), because `hasFreeTargets` never
consults the `paused` flag. -/
theorem C1_counterexample :
    Worker.getPollTargets pausedFreeWorker = ["a"]
  ∧ (∀ p ∈ pausedFreeWorker.targets, slackSpec p.2 = false)
  ∧ (Worker.poll pausedFreeWorker).1 = PollOutcome.claims ["a"] := by decide

/-- Claim C1 (amended): slack is only `queue.length < queue.concurrency`
(the paused flag is not consulted).  If no target in the computed
poll-target set has a queue shorter than its concurrency limit, `poll()`
returns without claiming anything. -/
theorem C1_no_slack_no_claim (w : Worker)
    (h : ∀ p ∈ w.targets, p.1 ∈ w.getPollTargets → ¬ p.2.length < p.2.concurrency)
    (ts : List String) :
    (Worker.poll w).1 ≠ PollOutcome.claims ts := by
  have hfree : w.hasFreeTargets w.getPollTargets = false := by
    rw [Worker.hasFreeTargets, List.any_eq_false]
    intro p hp
    simp only [Bool.and_eq_true, decide_eq_true_eq, not_and]
    exact fun hmem hlt => h p hp hmem hlt
  rw [Worker.poll]
  by_cases h1 : w.getPollTargets = []
  · simp [h1]
  · by_cases h2 : w.polling <;> simp [h1, h2, hfree]

/-- Witness for C1: a saturated (length 2, concurrency 1) target does not
lead to a claiming poll. -/
theorem C1_witness : (Worker.poll saturatedWorker).1 ≠ PollOutcome.claims ["a"] :=
  C1_no_slack_no_claim saturatedWorker (by decide) ["a"]

/-- Claim C2: the `done` row written by `enqueueJob`'s final
`setJobStatus` stores `result = 'ok'` exactly when the child exited with
code 0 (`'fail'` otherwise, including a null code), and on a spawn error it
stores `result = 'fail'` with `stderr` equal to the error message and
stack. -/
theorem C2_done_result_and_spawn_error (row : Row) (now : Nat) (code : Option Int)
    (signal : Option String) (out err msg stack : String) :
    (setJobStatus row "done"
        (enqueueJobFinal (JobStep.ran (RunOutcome.exited code signal out err))).1
        (enqueueJobFinal (JobStep.ran (RunOutcome.exited code signal out err))).2.toSetData now).result
      = some (if code = some 0 then "ok" else "fail")
  ∧ (setJobStatus row "done"
        (enqueueJobFinal (JobStep.ran (RunOutcome.spawnError msg stack))).1
        (enqueueJobFinal (JobStep.ran (RunOutcome.spawnError msg stack))).2.toSetData now).result
      = some "fail"
  ∧ (setJobStatus row "done"
        (enqueueJobFinal (JobStep.ran (RunOutcome.spawnError msg stack))).1
        (enqueueJobFinal (JobStep.ran (RunOutcome.spawnError msg stack))).2.toSetData now).stderr
      = some (msg ++ "\n" ++ stack) := by
  refine ⟨?_, ?_, ?_⟩ <;> simp [setJobStatus, enqueueJobFinal, JobData.toSetData]

/-- Claim C3: the configuration parser rejects a `[targets]` section entry
named `null`, but the `add-target` handler accepts `target='null'`: the
request is answered with `'ok'` and the Worker gains a target named
`null` — no reserved-name check exists in `validateInputTargetAndConcurrency`
or `onAddTarget`. -/
theorem C3_reserved_null_addTarget :
    parseTargetsSection [("null", "1")]
      = Except.error "word 'null' is reserved, please don't use it as a target name"
  ∧ onAddTarget emptyWorker (JsTop.object [("target", JsVal.str "null"), ("concurrency", JsVal.num 1)])
      = Except.ok (nullTargetWorker, "ok") := by
  constructor <;> rfl

/-- Claim C4 counterexample: a non-fatal query error (here a parse error)
is caught, not rethrown: the wrapped call resolves successfully with
`undefined` after a single attempt, so this persisting storage error is not
surfaced to the caller. -/
theorem C4_counterexample :
    wrap (CallAttempt.err { code := "ER_PARSE_ERROR", fatal := false }) none (CallAttempt.ok (0 : Nat))
      = (WrapOutcome.resolved none, 1)
  ∧ ∀ e : DbError, (WrapOutcome.resolved (none : Option Nat), 1).1 ≠ WrapOutcome.rejected e :=
  ⟨rfl, fun _ h => WrapOutcome.noConfusion h⟩

/-- Claim C4 (amended): on a first-attempt error the adapter makes at most
one further attempt; when the error is a fatal connection error it
reconnects and retries exactly once and any error on that path (reconnect
failure or retry failure) is surfaced as a rejection; a non-fatal error is
only logged and the call resolves with `undefined`. -/
theorem C4_reconnect_once (α : Type) (reconnect : Option DbError) (second : CallAttempt α)
    (e : DbError) :
    ((wrap (CallAttempt.err e) reconnect second).2 ≤ 2)
  ∧ (isReconnectableError e = true → reconnect = none →
        (wrap (CallAttempt.err e) reconnect second).2 = 2)
  ∧ (isReconnectableError e = true →
        (∃ e2, (wrap (CallAttempt.err e) reconnect second).1 = WrapOutcome.rejected e2)
      ∨ (∃ v, (wrap (CallAttempt.err e) reconnect second).1 = WrapOutcome.resolved (some v)))
  ∧ (isReconnectableError e = false →
        wrap (CallAttempt.err e) reconnect second = (WrapOutcome.resolved none, 1)) := by
  by_cases h : isReconnectableError e <;>
    rcases reconnect with _ | ie <;>
      rcases second with v | e2 <;>
        simp [wrap, h]

/-- Witness for C4: a lost-connection error leads to exactly two attempts,
and an unrecognized non-fatal error resolves with `undefined`. -/
theorem C4_witness :
    ((wrap (CallAttempt.err { code := "PROTOCOL_CONNECTION_LOST", fatal := false }) none
        (CallAttempt.ok (7 : Nat))).2 = 2)
  ∧ wrap (CallAttempt.err { code := "X", fatal := false }) (none : Option DbError)
        (CallAttempt.ok (7 : Nat))
      = (WrapOutcome.resolved none, 1) :=
  ⟨(C4_reconnect_once Nat none (CallAttempt.ok 7) _).2.1 (by decide) rfl,
   (C4_reconnect_once Nat none (CallAttempt.ok 7) _).2.2.2 (by decide)⟩

/-- Claim C5: when a Worker's forwarded `run-manual` call rejects and that
Worker owned at least one job id, the aggregation loop's nested
`for (let jobId of jobIds)` iterates a number and throws a TypeError, so
`_runManualCall` rejects instead of recording the ids under `errors`; a
fulfilled Worker's results are merged as described. -/
theorem C5_rejected_worker_aggregation :
    runManualAggregate [SettledResult.rejected "Socket is closed"] [[10]] [] []
      = Except.error "TypeError: jobIds is not iterable"
  ∧ runManualAggregate [SettledResult.fulfilled (some [(11, "done")]) none] [[11]] [] []
      = Except.ok { jobs := some [(11, "done")], errors := none } := by
  constructor <;> rfl

/-- Claim C6: the router's response always carries the request's `no`, and
an unregistered request type is answered with the
`unknown request type: '<type>'` error. -/
theorem C6_response_carries_request_no (handlers : List (String × HandlerOutcome)) (msg : ReqMsg) :
    (requestHandlerProcess handlers msg).no = msg.requestNo
  ∧ (handlers.lookup msg.requestType = none →
       (requestHandlerProcess handlers msg).error
         = some ("unknown request type: '" ++ msg.requestType ++ "'")) := by
  rcases h : handlers.lookup msg.requestType with _ | out
  · simp [requestHandlerProcess, h]
  · rcases out with d | e <;> simp [requestHandlerProcess, h]

/-- Witness for C6: an unknown request type keeps the request's `no` and
reports the unknown-type error. -/
theorem C6_witness :
    (requestHandlerProcess [] { requestType := "bogus", requestNo := 42 }).no = 42
  ∧ (requestHandlerProcess [] { requestType := "bogus", requestNo := 42 }).error
      = some "unknown request type: 'bogus'" :=
  ⟨(C6_response_carries_request_no [] { requestType := "bogus", requestNo := 42 }).1,
   (C6_response_carries_request_no [] { requestType := "bogus", requestNo := 42 }).2 rfl⟩

/-- Claim C7: with a configured password, a request on an unauthorized
connection whose password does not match is answered with an
`invalid password` error carrying the request's `no` and the connection is
closed; a connection from 127.0.0.1 with `always_allow_localhost` is
authorized from `setSocket` on, so any first request (even without a
password) is emitted to the handlers and the connection stays open. -/
theorem C7_invalid_password_and_localhost (cfg : AuthConfig) (p : String) (msg : AuthReqMsg)
    (hp : cfg.password = some p) (hm : msg.password ≠ some p) :
    processRequestAuth cfg false msg
      = ConnStep.errorClose { no := msg.requestNo, error := some "invalid password" }
  ∧ (cfg.always_allow_localhost = true →
       setSocketAuthorized cfg "127.0.0.1" = true
     ∧ ∀ m2 : AuthReqMsg, processRequestAuth cfg (setSocketAuthorized cfg "127.0.0.1") m2
         = ConnStep.emitRequest true) := by
  have hauth : setSocketAuthorized cfg "127.0.0.1" = cfg.always_allow_localhost := by
    rw [setSocketAuthorized, initialAuthorized, hp]
    simp
  constructor
  · simp [processRequestAuth, hp, hm]
  · intro hl
    rw [hauth, hl]
    exact ⟨rfl, fun m2 => by simp [processRequestAuth]⟩

/-- Witness for C7: concrete config with password `p` and localhost bypass
enabled, and a request without a password. -/
theorem C7_witness :
    processRequestAuth authCfg false authMsg
      = ConnStep.errorClose { no := 3, error := some "invalid password" }
  ∧ processRequestAuth authCfg (setSocketAuthorized authCfg "127.0.0.1") authMsg
      = ConnStep.emitRequest true :=
  ⟨(C7_invalid_password_and_localhost authCfg "p" authMsg rfl (by decide)).1,
   ((C7_invalid_password_and_localhost authCfg "p" authMsg rfl (by decide)).2 rfl).2 authMsg⟩

/-- Claim C8: with `mysql_fetch_limit = 0` the claim SELECT does NOT lose
its LIMIT clause: `config.get` coerces the falsy `0` to `null`, the
`!== 0` guard therefore passes, and the SQL ends in `LIMIT 0, null`;
moreover the re-poll guard is then falsy, so no follow-up poll is ever
scheduled.  With a non-zero limit the clause is `LIMIT 0, <n>` and a row
count reaching the limit unions the just-polled targets back into
`nextpoll` and triggers another `poll()`. -/
theorem C8_fetch_limit_zero :
    getTasksSql 0 "jobs" "'waiting'" "'a'"
      = "SELECT id, status, target FROM jobs WHERE status='waiting' AND target IN ('a') ORDER BY id  LIMIT 0, null FOR UPDATE"
  ∧ sqlLimitClause 100 = " LIMIT 0, 100"
  ∧ pollCycleEnd midPollWorker ["a"] 100 100 = (midPollWorkerRepoll, true)
  ∧ pollCycleEnd midPollWorker ["a"] 0 1000 = (midPollWorkerDone, false) := by
  refine ⟨rfl, rfl, rfl, rfl⟩

/-- Claim C9 counterexample: the accepted→running update also writes the
`result` column (to `'ok'`, the default `result` argument), so it does not
change only `status` and `time_started`. -/
theorem C9_counterexample :
    (setJobStatus acceptedRow "running" "ok" {} 100).result ≠ acceptedRow.result := by decide

/-- Claim C9 (amended): the accepted→running update performed by
`enqueueJob` (`setJobStatus(id, 'running')`) changes exactly `status`,
`result` (set to `'ok'`) and `time_started`; `return_code`, `sig`,
`stdout`, `stderr` and `time_finished` are unchanged. -/
theorem C9_running_update_frame (row : Row) (now : Nat) :
    (setJobStatus row "running" "ok" {} now).status = "running"
  ∧ (setJobStatus row "running" "ok" {} now).result = some "ok"
  ∧ (setJobStatus row "running" "ok" {} now).time_started = some now
  ∧ (setJobStatus row "running" "ok" {} now).return_code = row.return_code
  ∧ (setJobStatus row "running" "ok" {} now).sig = row.sig
  ∧ (setJobStatus row "running" "ok" {} now).stdout = row.stdout
  ∧ (setJobStatus row "running" "ok" {} now).stderr = row.stderr
  ∧ (setJobStatus row "running" "ok" {} now).time_finished = row.time_finished := by
  refine ⟨?_, ?_, ?_, ?_, ?_, ?_, ?_, ?_⟩ <;> simp [setJobStatus]

/-- Claim C10: if any requested `run-manual` id is not a number or is
already awaited, `onRunManual` rejects during the validation loop, before
registering any promise and before any storage access: `jobPromises` and
the `getTasks` call count are exactly as before. -/
theorem C10_onRunManual_prevalidation_atomic (st : JobdState) (ids : List JsVal)
    (h : (∃ v ∈ ids, jsTypeof v ≠ "number") ∨ (∃ n ∈ st.jobPromises, JsVal.num n ∈ ids)) :
    (∃ e, (onRunManualPre st ids).1 = Except.error e) ∧ (onRunManualPre st ids).2 = st := by
  have hbad : ∃ v ∈ uniqJs ids,
      jsTypeof v ≠ "number" ∨ ∃ n, v = JsVal.num n ∧ n ∈ st.jobPromises := by
    rcases h with ⟨v, hv, ht⟩ | ⟨n, hn, hv⟩
    · exact ⟨v, (mem_uniqJs ids v).mpr hv, Or.inl ht⟩
    · exact ⟨JsVal.num n, (mem_uniqJs ids (JsVal.num n)).mpr hv, Or.inr ⟨n, rfl, hn⟩⟩
  rcases validateIds_err st.jobPromises (uniqJs ids) hbad with ⟨e, he⟩
  refine ⟨⟨e, ?_⟩, ?_⟩ <;> simp [onRunManualPre, he]

/-- Witness for C10: requesting job 5 while job 5 is already awaited is
rejected with the daemon state unchanged. -/
theorem C10_witness :
    (∃ e, (onRunManualPre st10 [JsVal.num 5]).1 = Except.error e)
  ∧ (onRunManualPre st10 [JsVal.num 5]).2 = st10 :=
  C10_onRunManual_prevalidation_atomic st10 [JsVal.num 5] (Or.inr (by decide))

end Jobd
